import Mathlib

/-!
Verification model of the peer-to-peer UDP chat client (the most complete
program variant in `main.go`): the bubbletea `Model`/`Update` state machine,
the datagram listener's classification of `"ping"` keepalives versus data
events, the `addr:` discovery-response handling, the merged-timeline sort,
the delivery-confidence heuristic, and the startup flag/environment
validation in `main`.

Modelling conventions, stated once:
* Go `time.Time` values are modelled as `Int` (nanoseconds since epoch);
  `t.Before u` is `t < u` and `time.Since t` evaluated at instant `now` is
  `now - t`.  `punchInterval = 500 * time.Millisecond` becomes the integer
  `500000000`.
* `lipgloss.Style.Render` wraps a string in terminal styling escapes and is
  the identity on the text content (exactly the identity when no TTY is
  attached); it is modelled as the identity, so the origin labels
  `"(You)"` and `"(SYSTEM)"` appear plain.
* `sort.Slice(xs, less)` guarantees only that the result is a permutation
  of `xs` sorted with respect to `less`; the tie order is
  implementation-defined (Go runs stable insertion sort on ranges of at
  most 12 elements, and pdqsort, with no tie-order guarantee, beyond).
  The embedding has to compute some conforming outcome and uses
  `List.insertionSort` on the reflexive closure of the comparator
  `less(i,j) = xs[i].time.Before(xs[j].time)`.  Every program-level theorem
  below relies only on the length, membership, permutation and sortedness
  of that result — properties shared by every conforming outcome — except
  the tie-order counterexample, which evaluates sorts of at most two
  elements, where Go provably runs the identical stable insertion sort.
* The `textinput` bubble is an external collaborator; its value is modelled
  as a string, and a regular key press appends the pressed text (cursor-aware
  editing inside the collaborator is not load-bearing for any claim).
* `clipboard.WriteAll`, `conn.WriteToUDP` and `tea.Quit` together with
  `close(m.done)` are modelled as emitted effects; the subscription commands
  `waitForMessages`/`waitForPings` re-arm a channel read and have no
  observable effect, so they map to the empty effect list.
* `fmt.Sscanf(text, "addr:%s", &addr)` matches the literal `addr:`, then
  `%s` skips leading whitespace per the scanner's `space` rune table (its
  `SkipSpace` silently consumes `\v`, `\f` and a standalone `\r`, but
  errors on `\n` or on `\r\n`, since a newline in the input must match one
  in the format) and reads the maximal run of non-whitespace characters
  into `addr`; when scanning errors, or the input ends before a token, the
  error is discarded by the code and `addr` keeps its zero value `""`.
* The goroutine plumbing fields of `Model` (`mu`, `done`, `sub`, `pingSub`,
  `conn`) carry no state-machine data and are omitted; events delivered to
  `Update` carry the fields with which `listenForMessages` constructs them,
  with the `delivered` field left at its zero value `false`.
-/

namespace P2p

/-- Model of `net.UDPAddr`: the textual IP and the port. -/
structure Endpoint where
  ip : String
  port : Int
deriving DecidableEq, Repr

/-- The `Message` struct of the complete variant: timestamp, origin label,
port, text and the delivery-confidence flag `delivered`. -/
structure Message where
  time : Int
  ip : String
  port : Int
  text : String
  delivered : Bool
deriving DecidableEq, Repr, Inhabited

/-- The `tea.Msg` values consumed by `Model.Update`: key events, data events
(`Response`, carrying the fields set by `listenForMessages`), and keepalive
events (`Ping`). -/
inductive Event where
  | keyDown
  | keyUp
  | keyEnter
  | keyCtrlC
  | keyOther (s : String)
  | response (time : Int) (ip : String) (port : Int) (text : String)
  | ping (time : Int) (ip : String) (port : Int) (text : String)
deriving DecidableEq, Repr

/-- Observable side effects of one `Update` step: a UDP send (from
`sendMessage` or `requestAddress`), a clipboard write, or quitting
(`tea.Quit` with `close(m.done)`). -/
inductive Effect where
  | sendUDP (payload : String) (dest : Endpoint)
  | clipboardWrite (s : String)
  | quit
deriving DecidableEq, Repr

/-- The mutable `Model` state of the complete variant, goroutine plumbing
fields omitted (see the header comment). -/
structure Model where
  lastPingTime : Option Int
  remoteAddr : Endpoint
  localPort : Int
  discoveryAddr : Endpoint
  peerMessages : List Message
  userMessages : List Message
  allMessages : List Message
  hoveredMessageIndex : Int
  hoveredMessage : String
  copied : Bool
  textInput : String
deriving DecidableEq, Repr

/-- Source function `clamp`, verbatim on `Int` (Go `int`). -/
def clamp (value min max : Int) : Int :=
  if value < min then min
  else if value > max then max
  else value

/-- The keepalive interval `punchInterval = 500 * time.Millisecond`, in
nanoseconds. -/
def punchInterval : Int := 500000000

/-- The comparator of the timeline sort, as a non-strict relation: the
reflexive closure of `allMessages[i].time.Before(allMessages[j].time)`. -/
def timeLE (a b : Message) : Prop := a.time ≤ b.time

instance : DecidableRel timeLE :=
  fun a b => inferInstanceAs (Decidable (a.time ≤ b.time))

instance : IsTotal Message timeLE :=
  ⟨fun a b => Int.le_total a.time b.time⟩

instance : IsTrans Message timeLE :=
  ⟨fun _ _ _ h1 h2 => le_trans h1 h2⟩

/-- The concrete conforming outcome of `sort.Slice(xs, less)` with
`less = time.Before` that the embedding computes: an ascending-by-timestamp
permutation of the input (see the header comment on what `sort.Slice` does
and does not guarantee about the order of ties). -/
def goSortByTime (l : List Message) : List Message :=
  List.insertionSort timeLE l

/-- The `space` rune table of `fmt`'s scanner: 0x09-0x0d, the space, NEL,
no-break space, and the Unicode space ranges. -/
def goSpace (c : Char) : Bool :=
  (0x0009 ≤ c.toNat && c.toNat ≤ 0x000d) || c.toNat == 0x0020 ||
  c.toNat == 0x0085 || c.toNat == 0x00a0 || c.toNat == 0x1680 ||
  (0x2000 ≤ c.toNat && c.toNat ≤ 0x200a) || c.toNat == 0x2028 ||
  c.toNat == 0x2029 || c.toNat == 0x202f || c.toNat == 0x3000

/-- The whitespace skip `%s` performs (the scanner's `SkipSpace` with
newlines not counting as space, as in `Sscanf`): a `\n`, or a `\r` directly
followed by `\n`, is an unexpected newline and errors (`none`); any other
space-table character — including `\v`, `\f` and a standalone `\r` — is
consumed silently; the first non-space character ends the skip. -/
def sscanfSkip : List Char → Option (List Char)
  | [] => some []
  | c :: cs =>
      if c = '\n' then none
      else if c = '\r' ∧ cs.head? = some '\n' then none
      else if goSpace c then sscanfSkip cs
      else some (c :: cs)

/-- Model of `fmt.Sscanf(s, "addr:%s", &addr)` under the guard that `s` has
the `addr:` literal: drop the 5 literal characters, skip leading whitespace
per `sscanfSkip`, then take the maximal non-whitespace run.  On a scan
error (unexpected newline), or when the input ends before a token, the code
discards the error and `addr` keeps its zero value, also `""` here. -/
def sscanfAddr (s : String) : String :=
  match sscanfSkip (s.data.drop 5) with
  | none => ""
  | some rest => ⟨rest.takeWhile fun c => !(goSpace c)⟩

/-- Reading `m.allMessages[i].text` for the in-bounds indices at which the source
reads it (the source would panic out of bounds; every read is guarded by
`i < len` and the cursor invariant keeps `0 ≤ i`). -/
def textAt (l : List Message) (i : Int) : String :=
  (l.getD i.toNat default).text

/-- The shared tail of the `KeyDown`/`KeyUp` branches: recompute
`hoveredMessage` from `allMessages` at the (new) cursor, empty past the
end. -/
def navHover (m : Model) : Model :=
  if m.hoveredMessageIndex < (m.allMessages.length : Int) then
    { m with hoveredMessage := textAt m.allMessages m.hoveredMessageIndex }
  else
    { m with hoveredMessage := "" }

/-- The delivery-confidence heuristic computed in the send branch:
`delivered = lastPingTime != nil && time.Since(*lastPingTime) <= punchInterval`. -/
def deliveredFlag (now : Int) : Option Int → Bool
  | none => false
  | some t => decide (now - t ≤ punchInterval)

/-- The re-tagging of a data event performed in the `Response` branch of
`Update`: an `addr:`-prefixed text is replaced by the `Sscanf`-extracted
suffix with a `(SYSTEM)`-labelled origin; any other text is kept verbatim.
`delivered` is left at its zero value in both cases, as in the source. -/
def retagResponse (t : Int) (ip : String) (port : Int) (text : String) :
    Message :=
  if "addr:".data.isPrefixOf text.data then
    { time := t, ip := "(SYSTEM)" ++ " " ++ ip, port := port,
      text := sscanfAddr text, delivered := false }
  else
    { time := t, ip := ip, port := port, text := text, delivered := false }

/-- The `Model.Update` function of the complete variant, one event at a
time, with the
emitted effects made explicit. -/
def update (now : Int) (m : Model) (e : Event) : Model × List Effect :=
  match e with
  | .keyDown =>
      (navHover (if 0 < m.allMessages.length then
        { m with
          hoveredMessageIndex :=
            clamp (m.hoveredMessageIndex + 1) 0 (m.allMessages.length : Int),
          copied := false }
        else m), [])
  | .keyUp =>
      (navHover (if 0 < m.allMessages.length then
        { m with
          hoveredMessageIndex :=
            clamp (m.hoveredMessageIndex - 1) 0 (m.allMessages.length : Int),
          copied := false }
        else m), [])
  | .keyEnter =>
      if m.hoveredMessageIndex < (m.allMessages.length : Int) ∧
          0 < m.allMessages.length then
        ({ m with copied := true }, [.clipboardWrite m.hoveredMessage])
      else if m.textInput = "" then
        (m, [])
      else if m.textInput = "/quit" then
        (m, [.quit])
      else if m.textInput = "/getaddr" then
        ({ m with textInput := "" }, [.sendUDP "whoami" m.discoveryAddr])
      else
        ({ m with
            hoveredMessageIndex := m.hoveredMessageIndex + 1,
            copied := false,
            textInput := "",
            userMessages := m.userMessages ++
              [{ time := now,
                 ip := "(You)" ++ " localhost",
                 port := m.localPort,
                 text := m.textInput,
                 delivered := deliveredFlag now m.lastPingTime }],
            allMessages := goSortByTime (m.peerMessages ++ (m.userMessages ++
              [{ time := now,
                 ip := "(You)" ++ " localhost",
                 port := m.localPort,
                 text := m.textInput,
                 delivered := deliveredFlag now m.lastPingTime }])) },
         [.sendUDP m.textInput m.remoteAddr])
  | .keyCtrlC =>
      (m, [.quit])
  | .keyOther s =>
      ({ m with textInput := m.textInput ++ s }, [])
  | .response t ip port text =>
      let msg : Message := retagResponse t ip port text
      ({ m with
          hoveredMessageIndex := m.hoveredMessageIndex + 1,
          peerMessages := m.peerMessages ++ [msg],
          allMessages := goSortByTime ((m.peerMessages ++ [msg]) ++
            m.userMessages) },
       [])
  | .ping t _ _ _ =>
      ({ m with lastPingTime := some t }, [])

/-- The classification performed by `listenForMessages` on each received
datagram: payload exactly `"ping"` becomes a keepalive (`Ping`) event,
anything else a data (`Response`) event; both carry the receive timestamp,
the sender address and the raw text. -/
def classify (now : Int) (ip : String) (port : Int) (payload : String) :
    Event :=
  if payload = "ping" then .ping now ip port payload
  else .response now ip port payload

/-- The `Model` literal constructed in `main`. -/
def initModel (localPort : Int) (remoteAddr discoveryAddr : Endpoint) :
    Model :=
  { lastPingTime := none,
    remoteAddr := remoteAddr,
    localPort := localPort,
    discoveryAddr := discoveryAddr,
    peerMessages := [],
    userMessages := [],
    allMessages := [],
    hoveredMessageIndex := 0,
    hoveredMessage := "",
    copied := false,
    textInput := "" }

/-- The states the session loop can reach: the initial `Model` of `main`
under any configuration, closed under `Update` steps on arbitrary events at
arbitrary instants. -/
inductive Reachable : Model → Prop where
  | init : ∀ lp ra da, Reachable (initModel lp ra da)
  | step : ∀ m now e, Reachable m → Reachable (update now m e).1

/-- The configuration `main` assembles when validation succeeds. -/
structure Config where
  localPort : Int
  remoteAddr : Endpoint
  discoveryAddr : Endpoint
deriving DecidableEq, Repr

/-- Outcome of the startup validation sequence of `main`: exit 1 with
printed usage (flag check), exit 1 on the `discovery_ip` environment check,
exit 1 on the remote-IP parse check, or a running session.  The UDP bind
between the environment check and the IP check is an OS outcome outside the
program (its failure also exits 1) and is abstracted as succeeding. -/
inductive StartupResult where
  | usageExit
  | envExit
  | ipExit
  | ok (cfg : Config)
deriving DecidableEq, Repr

/-- The startup validation of `main`, in source order: the three flag checks
(`*localPort == 0 || *remoteIP == "" || *remotePort == 0`) print usage and
exit; then `os.Getenv("discovery_ip") == ""` exits; then, after the bind,
`net.ParseIP(*remoteIP) == nil` exits (`ripParses` stands for the outcome of
the external `net.ParseIP`); otherwise the program runs with the discovery
port fixed at 50000. -/
def startupCheck (lport : Int) (rip : String) (rport : Int)
    (discoveryIpEnv : String) (ripParses : Bool) : StartupResult :=
  if lport = 0 ∨ rip = "" ∨ rport = 0 then .usageExit
  else if discoveryIpEnv = "" then .envExit
  else if ripParses = false then .ipExit
  else .ok ⟨lport, ⟨rip, rport⟩, ⟨discoveryIpEnv, 50000⟩⟩

/-- Concrete peer endpoint used by the concrete evaluations (the spec's
scenario peer `10.0.0.5:6000`). -/
def epPeer : Endpoint := ⟨"10.0.0.5", 6000⟩

/-- Concrete discovery endpoint used by the concrete evaluations
(`203.0.113.9:50000`). -/
def epDisc : Endpoint := ⟨"203.0.113.9", 50000⟩

/-- Concrete initial state: local port 5000, the endpoints above. -/
def m0 : Model := initModel 5000 epPeer epDisc

/-- State `m0` after typing `hi`. -/
def m1 : Model := (update 0 m0 (Event.keyOther "hi")).1

/-- State `m1` after confirming at instant 5: a local message with
timestamp 5. -/
def m2 : Model := (update 5 m1 Event.keyEnter).1

/-- State `m2` after a data event also carrying timestamp 5: a remote message
whose timestamp ties the local one, appended after it. -/
def m3 : Model := (update 5 m2 (Event.response 5 "9.9.9.9" 7777 "yo")).1

/-- The local message appended in `m2`. -/
def userMsgTie : Message := ⟨5, "(You) localhost", 5000, "hi", false⟩

/-- The remote message appended in `m3`. -/
def peerMsgTie : Message := ⟨5, "9.9.9.9", 7777, "yo", false⟩

/-- State `m0` after typing `hello` (the spec's scenario input). -/
def mHello : Model := (update 0 m0 (Event.keyOther "hello")).1

/-- State `m0` after typing `/getaddr`. -/
def mGet : Model := (update 0 m0 (Event.keyOther "/getaddr")).1

/-- State `m3` after a `KeyUp`: the cursor moves onto a valid selection. -/
def mSel : Model := (update 9 m3 Event.keyUp).1

/-- The inductive state invariant of the session loop: the merged view is
the timeline sort of the concatenation of both sequences, the cursor lies in
`[0, length]`, and every peer-sequence entry has `delivered = false`. -/
def Inv (m : Model) : Prop :=
  m.allMessages = goSortByTime (m.peerMessages ++ m.userMessages) ∧
  0 ≤ m.hoveredMessageIndex ∧
  m.hoveredMessageIndex ≤ (m.allMessages.length : Int) ∧
  ∀ p ∈ m.peerMessages, p.delivered = false

lemma length_goSortByTime (l : List Message) :
    (goSortByTime l).length = l.length :=
  List.length_insertionSort timeLE l

lemma clamp_bounds (v lo hi : Int) (h : lo ≤ hi) :
    lo ≤ clamp v lo hi ∧ clamp v lo hi ≤ hi := by
  unfold clamp
  split_ifs <;> omega

lemma inv_navHover {m : Model} (h : Inv m) : Inv (navHover m) := by
  unfold navHover
  split_ifs <;> exact h

lemma inv_initModel (lp : Int) (ra da : Endpoint) :
    Inv (initModel lp ra da) := by
  refine ⟨rfl, le_refl 0, ?_, ?_⟩
  · simp [initModel]
  · intro p hp
    simp [initModel] at hp

lemma inv_update {m : Model} (now : Int) (e : Event) (h : Inv m) :
    Inv (update now m e).1 := by
  obtain ⟨hall, h0, hle, hdeliv⟩ := h
  cases e with
  | keyDown =>
      refine inv_navHover ?_
      by_cases hl : 0 < m.allMessages.length
      · have hb := clamp_bounds (m.hoveredMessageIndex + 1) 0
          (m.allMessages.length : Int) (by exact_mod_cast Nat.zero_le _)
        simp only [update, if_pos hl]
        exact ⟨hall, hb.1, hb.2, hdeliv⟩
      · simp only [update, if_neg hl]
        exact ⟨hall, h0, hle, hdeliv⟩
  | keyUp =>
      refine inv_navHover ?_
      by_cases hl : 0 < m.allMessages.length
      · have hb := clamp_bounds (m.hoveredMessageIndex - 1) 0
          (m.allMessages.length : Int) (by exact_mod_cast Nat.zero_le _)
        simp only [update, if_pos hl]
        exact ⟨hall, hb.1, hb.2, hdeliv⟩
      · simp only [update, if_neg hl]
        exact ⟨hall, h0, hle, hdeliv⟩
  | keyEnter =>
      simp only [update]
      split_ifs with hsel hempty hquit haddr
      · exact ⟨hall, h0, hle, hdeliv⟩
      · exact ⟨hall, h0, hle, hdeliv⟩
      · exact ⟨hall, h0, hle, hdeliv⟩
      · exact ⟨hall, h0, hle, hdeliv⟩
      · refine ⟨rfl, ?_, ?_, hdeliv⟩
        · show (0 : Int) ≤ m.hoveredMessageIndex + 1
          omega
        · have hlen : m.allMessages.length =
              m.peerMessages.length + m.userMessages.length := by
            rw [hall, length_goSortByTime, List.length_append]
          simp only [length_goSortByTime, List.length_append,
            List.length_cons, List.length_nil]
          omega
  | keyCtrlC =>
      exact ⟨hall, h0, hle, hdeliv⟩
  | keyOther s =>
      exact ⟨hall, h0, hle, hdeliv⟩
  | response t ip port text =>
      simp only [update]
      refine ⟨rfl, ?_, ?_, ?_⟩
      · show (0 : Int) ≤ m.hoveredMessageIndex + 1
        omega
      · have hlen : m.allMessages.length =
            m.peerMessages.length + m.userMessages.length := by
          rw [hall, length_goSortByTime, List.length_append]
        simp only [length_goSortByTime, List.length_append,
          List.length_cons, List.length_nil]
        omega
      · intro p hp
        simp only [List.mem_append, List.mem_singleton] at hp
        rcases hp with hp | hp
        · exact hdeliv p hp
        · subst hp
          simp only [retagResponse]
          split_ifs <;> rfl
  | ping t ip port text =>
      exact ⟨hall, h0, hle, hdeliv⟩

lemma inv_reachable {m : Model} (h : Reachable m) : Inv m := by
  induction h with
  | init lp ra da => exact inv_initModel lp ra da
  | step m now e _ ih => exact inv_update now e ih

lemma reachable_m0 : Reachable m0 :=
  Reachable.init 5000 epPeer epDisc

lemma reachable_m3 : Reachable m3 :=
  Reachable.step m2 5 (Event.response 5 "9.9.9.9" 7777 "yo")
    (Reachable.step m1 5 Event.keyEnter
      (Reachable.step m0 0 (Event.keyOther "hi") reachable_m0))

lemma navHover_spec (m : Model)
    (h0 : 0 ≤ m.hoveredMessageIndex)
    (hle : m.hoveredMessageIndex ≤ (m.allMessages.length : Int)) :
    (0 ≤ (navHover m).hoveredMessageIndex ∧
      (navHover m).hoveredMessageIndex ≤
        ((navHover m).allMessages.length : Int)) ∧
    ((navHover m).hoveredMessageIndex <
        ((navHover m).allMessages.length : Int) →
      (navHover m).hoveredMessage =
        textAt (navHover m).allMessages (navHover m).hoveredMessageIndex) ∧
    ((navHover m).hoveredMessageIndex =
        ((navHover m).allMessages.length : Int) →
      (navHover m).hoveredMessage = "") := by
  unfold navHover
  split_ifs with hlt
  · exact ⟨⟨h0, hle⟩, fun _ => rfl, fun he => absurd (he ▸ hlt) (lt_irrefl _)⟩
  · exact ⟨⟨h0, hle⟩, fun hc => absurd hc hlt, fun _ => rfl⟩

example : sscanfAddr "addr:\rfoo" = "foo" := by decide

example : sscanfAddr "addr:a\x0bb" = "a" := by decide

example : sscanfAddr "addr:\nfoo" = "" := by decide

example : sscanfAddr "addr:\r\nfoo" = "" := by decide

/-- C1 (amended): after every append the merged timeline is a permutation
of the concatenation of the peer and user sequences that is sorted
non-decreasing by timestamp.  (No tie-order clause: `sort.Slice` gives no
stability guarantee in general, and ties observably do not follow the
cross-sequence insertion order — see the counterexample.) -/
theorem C1_merged_sorted (m : Model) (h : Reachable m) :
    List.Perm m.allMessages (m.peerMessages ++ m.userMessages) ∧
    List.Sorted timeLE m.allMessages := by
  obtain ⟨hall, -, -, -⟩ := inv_reachable h
  constructor
  · rw [hall]
    exact List.perm_insertionSort timeLE _
  · rw [hall]
    exact List.sorted_insertionSort timeLE _

/-- C1 witness: the sort invariant evaluated in the reachable state `m3`. -/
theorem C1_merged_sorted_witness :
    List.Perm m3.allMessages (m3.peerMessages ++ m3.userMessages) ∧
    List.Sorted timeLE m3.allMessages :=
  C1_merged_sorted m3 reachable_m3

/-- C1 counterexample: in `m2` the local message (timestamp 5) is inserted
first and the remote message (also timestamp 5) second, yet the merged
timeline of `m3` lists the remote one first — the recomputed merged view is
not stable with respect to insertion order on equal timestamps.  (The
recomputations involved sort lists of at most two elements, on which Go's
`sort.Slice` runs exactly the stable insertion sort the model computes.) -/
theorem C1_counterexample :
    m2.userMessages = [userMsgTie] ∧ m2.peerMessages = [] ∧
    m3.peerMessages = [peerMsgTie] ∧ m3.userMessages = [userMsgTie] ∧
    peerMsgTie.time = userMsgTie.time ∧
    m3.allMessages = [peerMsgTie, userMsgTie] := by
  decide

/-- C2: the delivery-confidence flag of a locally appended message equals
`now - lastPingTime ≤ punchInterval` and is `false` when no keepalive has
ever been observed; the session loop records each keepalive event's receive
timestamp in `lastPingTime`. -/
theorem C2_delivery_confidence (m : Model) (now : Int)
    (hsel : ¬(m.hoveredMessageIndex < (m.allMessages.length : Int) ∧
      0 < m.allMessages.length))
    (hne : m.textInput ≠ "") (hq : m.textInput ≠ "/quit")
    (hg : m.textInput ≠ "/getaddr") :
    (update now m Event.keyEnter).1.userMessages = m.userMessages ++
      [{ time := now, ip := "(You)" ++ " localhost", port := m.localPort,
         text := m.textInput,
         delivered := deliveredFlag now m.lastPingTime }] ∧
    deliveredFlag now none = false ∧
    (∀ t, deliveredFlag now (some t) = decide (now - t ≤ punchInterval)) ∧
    (∀ t ip port text,
      (update now m (Event.ping t ip port text)).1.lastPingTime = some t) := by
  refine ⟨?_, rfl, fun t => rfl, fun t ip port text => rfl⟩
  simp only [update, if_neg hsel, if_neg hne, if_neg hq, if_neg hg]

/-- C2 witness: confirming `hello` at instant 17 before any keepalive has
been observed appends a local message with `delivered = false`. -/
theorem C2_delivery_confidence_witness :
    (update 17 mHello Event.keyEnter).1.userMessages = mHello.userMessages ++
      [{ time := 17, ip := "(You)" ++ " localhost", port := mHello.localPort,
         text := mHello.textInput,
         delivered := deliveredFlag 17 mHello.lastPingTime }] ∧
    deliveredFlag 17 none = false ∧
    (∀ t, deliveredFlag 17 (some t) = decide (17 - t ≤ punchInterval)) ∧
    (∀ t ip port text,
      (update 17 mHello (Event.ping t ip port text)).1.lastPingTime =
        some t) :=
  C2_delivery_confidence mHello 17 (by decide) (by decide) (by decide)
    (by decide)

/-- C3: `listenForMessages` classifies a payload that is exactly `ping` as
a keepalive event and any other payload as a data event carrying the
receive timestamp, sender address and raw text; processing a keepalive
event never appends to either message sequence nor to the merged view. -/
theorem C3_classification (now t : Int) (ip : String) (port : Int)
    (payload : String) (m : Model) (hp : payload ≠ "ping") :
    classify t ip port "ping" = Event.ping t ip port "ping" ∧
    classify t ip port payload = Event.response t ip port payload ∧
    (update now m (classify t ip port "ping")).1.peerMessages =
      m.peerMessages ∧
    (update now m (classify t ip port "ping")).1.userMessages =
      m.userMessages ∧
    (update now m (classify t ip port "ping")).1.allMessages =
      m.allMessages := by
  refine ⟨rfl, ?_, rfl, rfl, rfl⟩
  simp only [classify, if_neg hp]

/-- C3 witness: classification and the no-append property evaluated at the
payloads `ping` and `hello` in the state `m0`. -/
theorem C3_classification_witness :
    classify 3 "10.0.0.5" 6000 "ping" = Event.ping 3 "10.0.0.5" 6000 "ping" ∧
    classify 3 "10.0.0.5" 6000 "hello" =
      Event.response 3 "10.0.0.5" 6000 "hello" ∧
    (update 4 m0 (classify 3 "10.0.0.5" 6000 "ping")).1.peerMessages =
      m0.peerMessages ∧
    (update 4 m0 (classify 3 "10.0.0.5" 6000 "ping")).1.userMessages =
      m0.userMessages ∧
    (update 4 m0 (classify 3 "10.0.0.5" 6000 "ping")).1.allMessages =
      m0.allMessages :=
  C3_classification 4 3 "10.0.0.5" 6000 "hello" m0 (by decide)

/-- C4: confirming non-empty, non-command input with no valid selection
advances the cursor by one, clears the copied flag and the input buffer,
appends a local message carrying the current delivery confidence, recomputes
the merged view, and sends the input verbatim to the peer endpoint. -/
theorem C4_send_transition (m : Model) (now : Int)
    (hsel : ¬(m.hoveredMessageIndex < (m.allMessages.length : Int) ∧
      0 < m.allMessages.length))
    (hne : m.textInput ≠ "") (hq : m.textInput ≠ "/quit")
    (hg : m.textInput ≠ "/getaddr") :
    update now m Event.keyEnter =
      ({ m with
          hoveredMessageIndex := m.hoveredMessageIndex + 1,
          copied := false,
          textInput := "",
          userMessages := m.userMessages ++
            [{ time := now, ip := "(You)" ++ " localhost",
               port := m.localPort, text := m.textInput,
               delivered := deliveredFlag now m.lastPingTime }],
          allMessages := goSortByTime (m.peerMessages ++ (m.userMessages ++
            [{ time := now, ip := "(You)" ++ " localhost",
               port := m.localPort, text := m.textInput,
               delivered := deliveredFlag now m.lastPingTime }])) },
       [Effect.sendUDP m.textInput m.remoteAddr]) := by
  simp only [update, if_neg hsel, if_neg hne, if_neg hq, if_neg hg]

/-- C4 witness: the send transition evaluated on the state with `hello`
typed and no selection, at instant 17. -/
theorem C4_send_transition_witness :
    update 17 mHello Event.keyEnter =
      ({ mHello with
          hoveredMessageIndex := mHello.hoveredMessageIndex + 1,
          copied := false,
          textInput := "",
          userMessages := mHello.userMessages ++
            [{ time := 17, ip := "(You)" ++ " localhost",
               port := mHello.localPort, text := mHello.textInput,
               delivered := deliveredFlag 17 mHello.lastPingTime }],
          allMessages := goSortByTime (mHello.peerMessages ++
            (mHello.userMessages ++
            [{ time := 17, ip := "(You)" ++ " localhost",
               port := mHello.localPort, text := mHello.textInput,
               delivered := deliveredFlag 17 mHello.lastPingTime }])) },
       [Effect.sendUDP mHello.textInput mHello.remoteAddr]) :=
  C4_send_transition mHello 17 (by decide) (by decide) (by decide) (by decide)

/-- C5: confirming `/getaddr` clears the input and sends the fixed payload
`whoami` to the discovery endpoint with no synchronous wait; a subsequent
data event with text `addr:203.0.113.9:40000` appends exactly one message,
re-tagged with the `(SYSTEM)` origin label on the sender (discovery server)
address, whose text is the extracted `203.0.113.9:40000`. -/
theorem C5_discovery_roundtrip (m : Model) (now t port' : Int) (ip : String)
    (hsel : ¬(m.hoveredMessageIndex < (m.allMessages.length : Int) ∧
      0 < m.allMessages.length))
    (hg : m.textInput = "/getaddr") :
    update now m Event.keyEnter =
      ({ m with textInput := "" },
       [Effect.sendUDP "whoami" m.discoveryAddr]) ∧
    (update now m
        (Event.response t ip port' "addr:203.0.113.9:40000")).1.peerMessages =
      m.peerMessages ++
        [{ time := t, ip := "(SYSTEM)" ++ " " ++ ip, port := port',
           text := "203.0.113.9:40000", delivered := false }] ∧
    (update now m
        (Event.response t ip port' "addr:203.0.113.9:40000")).1.userMessages =
      m.userMessages := by
  have hne : m.textInput ≠ "" := by rw [hg]; decide
  have hq : m.textInput ≠ "/quit" := by rw [hg]; decide
  refine ⟨?_, ?_, rfl⟩
  · simp only [update, if_neg hsel, if_neg hne, if_neg hq, if_pos hg]
  · show m.peerMessages ++
      [retagResponse t ip port' "addr:203.0.113.9:40000"] = _
    simp only [retagResponse, if_pos
      (show ("addr:".data.isPrefixOf "addr:203.0.113.9:40000".data) = true
        from by decide)]
    rw [show sscanfAddr "addr:203.0.113.9:40000" = "203.0.113.9:40000"
      from by decide]

/-- C5 witness: the discovery round trip evaluated on the state with
`/getaddr` typed, then a discovery response from `203.0.113.9:50000`. -/
theorem C5_discovery_roundtrip_witness :
    update 0 mGet Event.keyEnter =
      ({ mGet with textInput := "" },
       [Effect.sendUDP "whoami" mGet.discoveryAddr]) ∧
    (update 0 mGet (Event.response 8 "203.0.113.9" 50000
        "addr:203.0.113.9:40000")).1.peerMessages =
      mGet.peerMessages ++
        [{ time := 8, ip := "(SYSTEM)" ++ " " ++ "203.0.113.9", port := 50000,
           text := "203.0.113.9:40000", delivered := false }] ∧
    (update 0 mGet (Event.response 8 "203.0.113.9" 50000
        "addr:203.0.113.9:40000")).1.userMessages = mGet.userMessages :=
  C5_discovery_roundtrip mGet 0 8 50000 "203.0.113.9" (by decide) (by decide)

/-- C6: in every reachable state the selection cursor lies in
`[0, length]`; a navigation event keeps it there and recomputes the hovered
text as the message text at the cursor, or empty when the cursor sits at
the past-end sentinel position. -/
theorem C6_cursor_clamp (m : Model) (h : Reachable m) :
    (0 ≤ m.hoveredMessageIndex ∧
      m.hoveredMessageIndex ≤ (m.allMessages.length : Int)) ∧
    ∀ now e, e = Event.keyDown ∨ e = Event.keyUp →
      (0 ≤ (update now m e).1.hoveredMessageIndex ∧
        (update now m e).1.hoveredMessageIndex ≤
          ((update now m e).1.allMessages.length : Int)) ∧
      ((update now m e).1.hoveredMessageIndex <
          ((update now m e).1.allMessages.length : Int) →
        (update now m e).1.hoveredMessage =
          textAt (update now m e).1.allMessages
            (update now m e).1.hoveredMessageIndex) ∧
      ((update now m e).1.hoveredMessageIndex =
          ((update now m e).1.allMessages.length : Int) →
        (update now m e).1.hoveredMessage = "") := by
  obtain ⟨-, h0, hle, -⟩ := inv_reachable h
  refine ⟨⟨h0, hle⟩, ?_⟩
  rintro now e (rfl | rfl) <;>
  · by_cases hl : 0 < m.allMessages.length
    · simp only [update, if_pos hl]
      exact navHover_spec _
        (clamp_bounds _ 0 (m.allMessages.length : Int)
          (by exact_mod_cast Nat.zero_le _)).1
        (clamp_bounds _ 0 (m.allMessages.length : Int)
          (by exact_mod_cast Nat.zero_le _)).2
    · simp only [update, if_neg hl]
      exact navHover_spec _ h0 hle

/-- C6 witness: cursor bounds and the navigation postcondition evaluated in
the reachable state `m3` on a `KeyDown`. -/
theorem C6_cursor_clamp_witness :
    (0 ≤ m3.hoveredMessageIndex ∧
      m3.hoveredMessageIndex ≤ (m3.allMessages.length : Int)) ∧
    (0 ≤ (update 9 m3 Event.keyDown).1.hoveredMessageIndex ∧
      (update 9 m3 Event.keyDown).1.hoveredMessageIndex ≤
        ((update 9 m3 Event.keyDown).1.allMessages.length : Int)) ∧
    ((update 9 m3 Event.keyDown).1.hoveredMessageIndex <
        ((update 9 m3 Event.keyDown).1.allMessages.length : Int) →
      (update 9 m3 Event.keyDown).1.hoveredMessage =
        textAt (update 9 m3 Event.keyDown).1.allMessages
          (update 9 m3 Event.keyDown).1.hoveredMessageIndex) ∧
    ((update 9 m3 Event.keyDown).1.hoveredMessageIndex =
        ((update 9 m3 Event.keyDown).1.allMessages.length : Int) →
      (update 9 m3 Event.keyDown).1.hoveredMessage = "") :=
  ⟨(C6_cursor_clamp m3 reachable_m3).1,
   (C6_cursor_clamp m3 reachable_m3).2 9 Event.keyDown (Or.inl rfl)⟩

/-- C7 (amended): a data event whose text has the `addr:` prefix is always
appended as exactly one message (not dropped), surfaced with the
`Sscanf`-extracted token of the suffix — the maximal non-whitespace run
after skipped leading blanks, the empty string when the scan errors on an
unexpected newline or finds no token — rather than with the raw event
text. -/
theorem C7_addr_not_dropped (m : Model) (now t port' : Int)
    (ip text : String)
    (hpre : ("addr:".data.isPrefixOf text.data) = true) :
    (update now m (Event.response t ip port' text)).1.peerMessages =
      m.peerMessages ++
        [{ time := t, ip := "(SYSTEM)" ++ " " ++ ip, port := port',
           text := sscanfAddr text, delivered := false }] ∧
    (update now m (Event.response t ip port' text)).1.userMessages =
      m.userMessages := by
  refine ⟨?_, rfl⟩
  show m.peerMessages ++ [retagResponse t ip port' text] = _
  simp only [retagResponse, if_pos hpre]

/-- C7 witness: the degraded-but-not-dropped behaviour evaluated on the
unparseable discovery response `addr:` (empty suffix). -/
theorem C7_addr_not_dropped_witness :
    (update 0 m0
        (Event.response 7 "203.0.113.9" 50000 "addr:")).1.peerMessages =
      m0.peerMessages ++
        [{ time := 7, ip := "(SYSTEM)" ++ " " ++ "203.0.113.9", port := 50000,
           text := sscanfAddr "addr:", delivered := false }] ∧
    (update 0 m0
        (Event.response 7 "203.0.113.9" 50000 "addr:")).1.userMessages =
      m0.userMessages :=
  C7_addr_not_dropped m0 0 7 50000 "203.0.113.9" "addr:" (by decide)

/-- C7 counterexample: the data event `addr:bogus stuff` (suffix not an
address) is surfaced with text `bogus` — neither the raw event text
`addr:bogus stuff` nor even the raw suffix `bogus stuff`. -/
theorem C7_counterexample :
    (update 0 m0 (Event.response 7 "203.0.113.9" 50000
        "addr:bogus stuff")).1.peerMessages =
      [{ time := 7, ip := "(SYSTEM) 203.0.113.9", port := 50000,
         text := "bogus", delivered := false }] ∧
    "bogus" ≠ "addr:bogus stuff" ∧ "bogus" ≠ "bogus stuff" := by
  decide

/-- C8: confirming while the cursor is on a valid selection copies the
hovered text to the clipboard and sets the copied flag, leaving the input
buffer, both message sequences, the merged view and the cursor unchanged
(the result state differs from `m` in the `copied` field alone). -/
theorem C8_copy_on_selection (m : Model) (now : Int)
    (hcur : m.hoveredMessageIndex < (m.allMessages.length : Int))
    (hlen : 0 < m.allMessages.length) :
    update now m Event.keyEnter =
      ({ m with copied := true },
       [Effect.clipboardWrite m.hoveredMessage]) := by
  simp only [update, if_pos (And.intro hcur hlen)]

/-- C8 witness: the copy transition evaluated in the state `mSel`, whose
cursor hovers the first of two messages. -/
theorem C8_copy_on_selection_witness :
    update 11 mSel Event.keyEnter =
      ({ mSel with copied := true },
       [Effect.clipboardWrite mSel.hoveredMessage]) :=
  C8_copy_on_selection mSel 11 (by decide) (by decide)

/-- C9 (amended): startup exits 1 with printed usage exactly when a flag
equals its zero value (`lport = 0`, empty peer IP, `rport = 0`); otherwise
it exits 1 without usage when the `discovery_ip` environment value is empty,
then when the peer IP fails to parse; otherwise the session starts with the
discovery port fixed at 50000.  Negative ports pass flag validation. -/
theorem C9_startup_validation (lport rport : Int) (rip denv : String)
    (p : Bool) :
    (startupCheck lport rip rport denv p = StartupResult.usageExit ↔
      (lport = 0 ∨ rip = "" ∨ rport = 0)) ∧
    (lport ≠ 0 → rip ≠ "" → rport ≠ 0 →
      ((startupCheck lport rip rport denv p = StartupResult.envExit ↔
        denv = "") ∧
       (denv ≠ "" →
        (startupCheck lport rip rport denv p = StartupResult.ipExit ↔
          p = false)) ∧
       (denv ≠ "" → p = true →
        startupCheck lport rip rport denv p =
          StartupResult.ok ⟨lport, ⟨rip, rport⟩, ⟨denv, 50000⟩⟩))) := by
  by_cases h1 : lport = 0 ∨ rip = "" ∨ rport = 0 <;>
  by_cases h2 : denv = "" <;>
  by_cases h3 : p = false <;>
  simp_all [startupCheck]

/-- C9 witness: a zero local port is rejected with usage; the spec's
scenario configuration is accepted with discovery port 50000. -/
theorem C9_startup_validation_witness :
    startupCheck 0 "10.0.0.5" 6000 "203.0.113.9" true =
      StartupResult.usageExit ∧
    startupCheck 5000 "10.0.0.5" 6000 "203.0.113.9" true =
      StartupResult.ok ⟨5000, ⟨"10.0.0.5", 6000⟩, ⟨"203.0.113.9", 50000⟩⟩ :=
  ⟨(C9_startup_validation 0 6000 "10.0.0.5" "203.0.113.9" true).1.mpr
      (Or.inl rfl),
   ((C9_startup_validation 5000 6000 "10.0.0.5" "203.0.113.9" true).2
      (by decide) (by decide) (by decide)).2.2 (by decide) rfl⟩

/-- C9 counterexample: a negative peer port (`rport = -1`) is not `> 0`,
yet startup validation accepts it and the session starts — startup does not
fail whenever the peer port is not positive. -/
theorem C9_counterexample :
    startupCheck 5000 "10.0.0.5" (-1) "203.0.113.9" true =
      StartupResult.ok ⟨5000, ⟨"10.0.0.5", -1⟩, ⟨"203.0.113.9", 50000⟩⟩ ∧
    ¬((-1 : Int) > 0) := by
  decide

/-- C10: in every reachable state every peer-sequence message has
`delivered = false`, so a message with a true delivery-confidence flag in
the merged view always originates from the local-user sequence. -/
theorem C10_delivered_only_local (m : Model) (h : Reachable m) :
    (∀ p ∈ m.peerMessages, p.delivered = false) ∧
    (∀ q ∈ m.allMessages, q.delivered = true → q ∈ m.userMessages) := by
  obtain ⟨hall, -, -, hdeliv⟩ := inv_reachable h
  refine ⟨hdeliv, ?_⟩
  intro q hq hqd
  rw [hall] at hq
  have hmem : q ∈ m.peerMessages ++ m.userMessages :=
    (List.mem_insertionSort timeLE).mp hq
  rcases List.mem_append.mp hmem with hp | hu
  · exact absurd hqd (by simp [hdeliv q hp])
  · exact hu

/-- C10 witness: the delivered-only-local property evaluated in the
reachable state `m3`, which holds one peer and one user message. -/
theorem C10_delivered_only_local_witness :
    (∀ p ∈ m3.peerMessages, p.delivered = false) ∧
    (∀ q ∈ m3.allMessages, q.delivered = true → q ∈ m3.userMessages) :=
  C10_delivered_only_local m3 reachable_m3

end P2p
